import Mathlib

/-!
Verification of the transactional core of the Transportes Cruz Selvatico backend:
the loyalty-points ledger shared by ticket sales (src/controllers/ticketsController.js,
handlers vender and venderInstantaneo) and shipment registration
(src/unnamed/part_005, handler registrar), the shipment lifecycle state machine
(src/unnamed/part_005), and sequential-code allocation (src/services/codigoService.js).

Monetary values are JavaScript numbers in the source; they are modelled over the
rationals, with JavaScript rounding made explicit: Math.floor is the integer floor
and Math.round x is the floor of x + 1/2 (round half toward positive infinity).
Point balances are integers.
-/

namespace Selvatico

/-- JavaScript Math.round: round half up, as floor of the shifted value. -/
def jsRound (q : ℚ) : ℤ := Int.floor (q + 1 / 2)

/-- Round to two decimals as the source does: Math.round (x * 100) / 100. -/
def round2 (q : ℚ) : ℚ := (jsRound (q * 100) : ℚ) / 100

/-- Loyalty economics read from tbl_configuracion_sistema
(obtenerConfiguracionPuntos in ticketsController.js lines 25-46 and part_005
lines 19-40); both values default to 10 when unset. -/
structure ConfigPuntos where
  solesPorPunto : ℚ
  puntosPorSolDescuento : ℚ
deriving DecidableEq

/-- A customer loyalty account: the puntos_disponibles and puntos_historicos
columns of tbl_pasajeros. -/
structure CuentaPuntos where
  puntosDisponibles : ℤ
  puntosHistoricos : ℤ
deriving DecidableEq

/-- puntosDisponiblesActuales (ticketsController.js lines 328-334): 0 when the
customer does not exist yet. -/
def disponiblesActuales (cuenta : Option CuentaPuntos) : ℤ :=
  match cuenta with
  | some c => c.puntosDisponibles
  | none => 0

/-- puntosHistoricosActuales (ticketsController.js lines 329-334). -/
def historicosActuales (cuenta : Option CuentaPuntos) : ℤ :=
  match cuenta with
  | some c => c.puntosHistoricos
  | none => 0

/-- puntosGanados = Math.floor (precioOriginal / solesPorPunto)
(ticketsController.js line 279, line 907; part_005 line 268).
Computed from the pre-discount original price. -/
def puntosGanadosDe (cfg : ConfigPuntos) (precioOriginal : ℚ) : ℤ :=
  Int.floor (precioOriginal / cfg.solesPorPunto)

/-- puntosUsados = Math.max (0, parseInt puntosACanjear or 0)
(ticketsController.js line 282). -/
def puntosUsadosDe (puntosACanjear : ℤ) : ℤ := max 0 puntosACanjear

/-- puntosACanjearFinal = Math.min (puntosUsados, puntosDisponiblesActuales)
(ticketsController.js line 337; part_005 line 293): the clamped redemption. -/
def puntosACanjearFinalDe (cuenta : Option CuentaPuntos) (puntosACanjear : ℤ) : ℤ :=
  min (puntosUsadosDe puntosACanjear) (disponiblesActuales cuenta)

/-- descuentoPuntos (ticketsController.js lines 340-344; part_005 lines 296-300):
the quotient by puntosPorSolDescuento, capped at the original price, then rounded
to two decimals. -/
def descuentoPuntosDe (cfg : ConfigPuntos) (cuenta : Option CuentaPuntos)
    (precioOriginal : ℚ) (puntosACanjear : ℤ) : ℚ :=
  round2 (min ((puntosACanjearFinalDe cuenta puntosACanjear : ℚ) / cfg.puntosPorSolDescuento)
    precioOriginal)

/-- precioFinal (ticketsController.js lines 347-349): the manual override price,
rounded to cents and floored at zero, replaces the computed final price when
supplied; otherwise max (0, precioOriginal - descuentoPuntos). -/
def precioFinalDe (cfg : ConfigPuntos) (cuenta : Option CuentaPuntos)
    (precioOriginal : ℚ) (puntosACanjear : ℤ) (precioManual : Option ℚ) : ℚ :=
  match precioManual with
  | some m => max 0 (round2 m)
  | none => max 0 (precioOriginal - descuentoPuntosDe cfg cuenta precioOriginal puntosACanjear)

/-- The derived quantities of one sale, as returned inside the transaction of
vender (ticketsController.js lines 285-438), venderInstantaneo (lines 913-1081,
textually identical on these fields) and registrar (part_005 lines 274-403). -/
structure VentaPuntos where
  precioOriginal : ℚ
  puntosGanados : ℤ
  puntosACanjearFinal : ℤ
  descuentoPuntos : ℚ
  precioFinal : ℚ
  nuevosPuntosDisponibles : ℤ
  nuevosPuntosHistoricos : ℤ
deriving DecidableEq

/-- The loyalty/pricing computation of a ticket sale, assembled exactly as in
ticketsController.js lines 279-353: nuevosPuntosDisponibles =
puntosDisponiblesActuales - puntosACanjearFinal + puntosGanados and
nuevosPuntosHistoricos = puntosHistoricosActuales + puntosGanados (lines 352-353). -/
def venta (cfg : ConfigPuntos) (cuenta : Option CuentaPuntos) (precioOriginal : ℚ)
    (puntosACanjear : ℤ) (precioManual : Option ℚ) : VentaPuntos where
  precioOriginal := precioOriginal
  puntosGanados := puntosGanadosDe cfg precioOriginal
  puntosACanjearFinal := puntosACanjearFinalDe cuenta puntosACanjear
  descuentoPuntos := descuentoPuntosDe cfg cuenta precioOriginal puntosACanjear
  precioFinal := precioFinalDe cfg cuenta precioOriginal puntosACanjear precioManual
  nuevosPuntosDisponibles :=
    disponiblesActuales cuenta - puntosACanjearFinalDe cuenta puntosACanjear
      + puntosGanadosDe cfg precioOriginal
  nuevosPuntosHistoricos := historicosActuales cuenta + puntosGanadosDe cfg precioOriginal

/-- The loyalty/pricing computation of a shipment registration, part_005
lines 268-307: the same formulas as the ticket sale, with no manual override
price (precioFinal = max (0, precioOriginal - descuentoPuntos), line 303). -/
def registrarPuntos (cfg : ConfigPuntos) (cuenta : Option CuentaPuntos)
    (precioOriginal : ℚ) (puntosACanjear : ℤ) : VentaPuntos where
  precioOriginal := precioOriginal
  puntosGanados := puntosGanadosDe cfg precioOriginal
  puntosACanjearFinal := puntosACanjearFinalDe cuenta puntosACanjear
  descuentoPuntos := descuentoPuntosDe cfg cuenta precioOriginal puntosACanjear
  precioFinal := max 0 (precioOriginal - descuentoPuntosDe cfg cuenta precioOriginal puntosACanjear)
  nuevosPuntosDisponibles :=
    disponiblesActuales cuenta - puntosACanjearFinalDe cuenta puntosACanjear
      + puntosGanadosDe cfg precioOriginal
  nuevosPuntosHistoricos := historicosActuales cuenta + puntosGanadosDe cfg precioOriginal

/-- The account persisted by the transaction: a new customer is created with
puntos_disponibles = puntos_historicos = puntosGanados (ticketsController.js
lines 355-367; part_005 lines 309-321), an existing one is updated with the
nuevos balances (lines 368-381; part_005 lines 322-335). -/
def cuentaTrasVenta (cuenta : Option CuentaPuntos) (r : VentaPuntos) : CuentaPuntos :=
  match cuenta with
  | none => { puntosDisponibles := r.puntosGanados, puntosHistoricos := r.puntosGanados }
  | some _ =>
    { puntosDisponibles := r.nuevosPuntosDisponibles
      puntosHistoricos := r.nuevosPuntosHistoricos }

/-- The ledger invariant of the spec: 0 <= pointsAvailable <= pointsHistoric. -/
def invariante (c : CuentaPuntos) : Prop :=
  0 ≤ c.puntosDisponibles ∧ c.puntosDisponibles ≤ c.puntosHistoricos

/-! ## Shipment lifecycle state machine (src/unnamed/part_005) -/

/-- The estado_actual enum of tbl_encomiendas. -/
inductive Estado
  | REGISTRADO
  | EN_ALMACEN
  | EN_RUTA
  | LLEGO_A_DESTINO
  | RETIRADO
deriving DecidableEq, BEq, Repr

/-- TRANSICIONES_PERMITIDAS, part_005 lines 43-49: only forward transitions. -/
def TRANSICIONES_PERMITIDAS : Estado → List Estado
  | .REGISTRADO => [.EN_ALMACEN]
  | .EN_ALMACEN => [.EN_RUTA]
  | .EN_RUTA => [.LLEGO_A_DESTINO]
  | .LLEGO_A_DESTINO => [.RETIRADO]
  | .RETIRADO => []

/-- The requesting actor: req.user.id_punto is null for the administrative role. -/
structure Usuario where
  idPunto : Option ℤ
deriving DecidableEq

/-- A shipment row of tbl_encomiendas together with the estadoDestino column of
its appended tbl_eventos_encomienda rows, in creation order. -/
structure Encomienda where
  estadoActual : Estado
  idPuntoOrigen : ℤ
  idPuntoDestino : ℤ
  claveSeguridad : Option String
  eventos : List Estado
deriving DecidableEq

/-- The state a shipment is created in by registrar: estadoActual REGISTRADO
(part_005 line 361) with one initial REGISTRADO event (lines 379-388). -/
def encomiendaInicial (origen destino : ℤ) (clave : Option String) : Encomienda where
  estadoActual := .REGISTRADO
  idPuntoOrigen := origen
  idPuntoDestino := destino
  claveSeguridad := clave
  eventos := [.REGISTRADO]

/-- Location check of cambiarEstado, part_005 lines 791-809: an actor bound to a
location may act only when it is the shipment origin or destination; an actor
bound to none may act on any shipment. -/
def perteneceAPunto (user : Usuario) (enc : Encomienda) : Bool :=
  match user.idPunto with
  | none => true
  | some p => p == enc.idPuntoOrigen || p == enc.idPuntoDestino

/-- The failure modes of cambiarEstado, in source order (part_005 lines 791-897). -/
inductive ErrorCambio
  | noAutorizado
  | transicionNoPermitida
  | usarEndpointRetiro
  | conflictoConcurrente
deriving DecidableEq, Repr

/-- HTTP status attached to each cambiarEstado failure in part_005:
403 (line 804), 400 (line 819), 400 (line 828), 409 (line 891). -/
def httpDeErrorCambio : ErrorCambio → ℕ
  | .noAutorizado => 403
  | .transicionNoPermitida => 400
  | .usarEndpointRetiro => 400
  | .conflictoConcurrente => 409

/-- cambiarEstado (PATCH /api/encomiendas/:id/estado), part_005 lines 761-898.
enc is the row read at validation time; estadoTx is the estadoActual re-read
inside the transaction immediately before writing (lines 843-849, optimistic
locking). Checks in source order: location authorization, the transition table,
the RETIRADO redirect to the dedicated endpoint, the concurrent-modification
re-read; on success the status is updated and one event appended. -/
def cambiarEstado (user : Usuario) (enc : Encomienda) (nuevoEstado : Estado)
    (estadoTx : Estado) : Except ErrorCambio Encomienda :=
  if perteneceAPunto user enc = false then .error .noAutorizado
  else if (TRANSICIONES_PERMITIDAS enc.estadoActual).contains nuevoEstado = false then
    .error .transicionNoPermitida
  else if nuevoEstado = .RETIRADO then .error .usarEndpointRetiro
  else if estadoTx ≠ enc.estadoActual then .error .conflictoConcurrente
  else .ok { enc with estadoActual := nuevoEstado, eventos := enc.eventos ++ [nuevoEstado] }

/-- The failure modes of retirar, in source order (part_005 lines 904-1035). -/
inductive ErrorRetiro
  | dniRequerido
  | fotoRequerida
  | fotoMuyGrande
  | noLlegoADestino
  | noAutorizado
  | claveRequerida
  | claveIncorrecta
  | conflictoConcurrente
deriving DecidableEq, Repr

/-- HTTP status attached to each retirar failure in part_005: all 400 except the
403 of line 958 and the 409 of line 1143. -/
def httpDeErrorRetiro : ErrorRetiro → ℕ
  | .noAutorizado => 403
  | .conflictoConcurrente => 409
  | _ => 400

/-- MAX_FOTO_SIZE = 5 * 1024 * 1024 * 1.37 (part_005 line 922). -/
def MAX_FOTO_SIZE : ℚ := 5 * 1024 * 1024 * (137 / 100)

/-- Destination check of retirar, part_005 line 950: an actor bound to a
location other than the shipment destination is rejected. -/
def retiroNoAutorizado (user : Usuario) (enc : Encomienda) : Bool :=
  match user.idPunto with
  | none => false
  | some p => p != enc.idPuntoDestino

/-- The transaction body of retirar, part_005 lines 985-1035: re-read the status;
abort on concurrent modification, otherwise set RETIRADO and append the event. -/
def retirarCommit (enc : Encomienda) (estadoTx : Estado) : Except ErrorRetiro Encomienda :=
  if estadoTx ≠ Estado.LLEGO_A_DESTINO then .error .conflictoConcurrente
  else .ok { enc with estadoActual := .RETIRADO, eventos := enc.eventos ++ [.RETIRADO] }

/-- retirar (POST /api/encomiendas/:id/retirar), part_005 lines 904-1035.
Missing request fields are modelled as none (JavaScript falsy). Checks in source
order: dniRetiro present, fotoBase64 present and within MAX_FOTO_SIZE, status is
LLEGO_A_DESTINO, actor bound to the destination (or to no location), and when the
shipment carries a clave_seguridad an exactly matching submitted code. -/
def retirar (user : Usuario) (enc : Encomienda) (dniRetiro : Option String)
    (fotoBase64 : Option String) (claveIngresada : Option String) (estadoTx : Estado) :
    Except ErrorRetiro Encomienda :=
  match dniRetiro with
  | none => .error .dniRequerido
  | some _ =>
    match fotoBase64 with
    | none => .error .fotoRequerida
    | some foto =>
      if MAX_FOTO_SIZE < (foto.length : ℚ) then .error .fotoMuyGrande
      else if enc.estadoActual ≠ Estado.LLEGO_A_DESTINO then .error .noLlegoADestino
      else if retiroNoAutorizado user enc then .error .noAutorizado
      else
        match enc.claveSeguridad with
        | some clave =>
          match claveIngresada with
          | none => .error .claveRequerida
          | some ci =>
            if ci ≠ clave then .error .claveIncorrecta
            else retirarCommit enc estadoTx
        | none => retirarCommit enc estadoTx

/-- The shipment row as persisted after a handler runs: an error response leaves
the row untouched. -/
def estadoTras {ε : Type} (enc : Encomienda) : Except ε Encomienda → Encomienda
  | .ok enc2 => enc2
  | .error _ => enc

/-- A list of statuses is a walk of the transition table when each element is a
listed successor of the one before it, starting from s. -/
def esCaminoDesde : Estado → List Estado → Bool
  | _, [] => true
  | s, t :: resto => (TRANSICIONES_PERMITIDAS s).contains t && esCaminoDesde t resto

/-- Event-history consistency: the event list starts with the initial REGISTRADO
event, is a forward walk of the transition table, and ends at the current status. -/
def eventosConsistentes (enc : Encomienda) : Bool :=
  match enc.eventos with
  | [] => false
  | e0 :: resto =>
    (e0 == Estado.REGISTRADO) && esCaminoDesde e0 resto
      && decide (enc.eventos.getLast? = some enc.estadoActual)

/-! ## Sequential code allocation (src/services/codigoService.js) -/

/-- String(secuencial).padStart(5, '0') (codigoService.js line 36). -/
def pad5 (n : ℕ) : String :=
  let s := toString n
  String.mk (List.replicate (5 - s.length) '0') ++ s

/-- The trailing sequence number of the lexicographically greatest existing code
for the day (codigoService.js lines 19-34: findFirst ordered by code descending,
then parseInt of the third dash-separated part), 0 when none exists so that the
first code of the day gets sequence 1. The day's existing codes are represented
by their trailing sequence numbers; for same-width zero-padded codes the
lexicographic maximum is the numeric maximum. -/
def ultimoSecuencialDelDia (existentes : List ℕ) : ℕ := existentes.foldr max 0

/-- generarCodigoTicket (codigoService.js lines 14-37): read-max-then-increment
inside the enclosing transaction, from the snapshot of existing same-day codes. -/
def generarCodigoTicket (fecha : String) (existentes : List ℕ) : String :=
  "TKT-" ++ fecha ++ "-" ++ pad5 (ultimoSecuencialDelDia existentes + 1)

/-- generarCodigoTracking (codigoService.js lines 45-68): the same algorithm for
the ENC- domain. -/
def generarCodigoTracking (fecha : String) (existentes : List ℕ) : String :=
  "ENC-" ++ fecha ++ "-" ++ pad5 (ultimoSecuencialDelDia existentes + 1)

/-! ## Post-commit invoice emission (ticketsController.js lines 438-567,
part_005 lines 403-540) -/

/-- The response assembled by vender / registrar after the transaction committed. -/
structure Respuesta (α : Type) where
  status : ℕ
  documento : Option α
  comprobanteId : Option ℤ
  comprobanteError : Option String
deriving DecidableEq

/-- The flow after the sale transaction of vender (ticketsController.js): the
transaction has already committed doc into the store when comprobante emission is
attempted (lines 453-558); the catch of lines 559-567 answers 201 with the
committed ticket and a comprobanteError flag, and no path removes the committed
document. venderInstantaneo (lines 1096-1206) and registrar (part_005 lines
422-540, answering 201 at 532-539) have the same shape. -/
def emitirYResponder {α : Type} (committed : List α) (doc : α)
    (emision : Except String ℤ) : List α × Respuesta α :=
  let committed2 := committed ++ [doc]
  match emision with
  | .error msg =>
    (committed2,
      { status := 201, documento := some doc, comprobanteId := none,
        comprobanteError := some msg })
  | .ok idComprobante =>
    (committed2,
      { status := 201, documento := some doc, comprobanteId := some idComprobante,
        comprobanteError := none })

/-! ## Helper lemmas -/

/-- The shipment registration computes the same quantities as a ticket sale
with no manual override price. -/
theorem registrarPuntos_eq_venta (cfg : ConfigPuntos) (cuenta : Option CuentaPuntos)
    (precioOriginal : ℚ) (puntosACanjear : ℤ) :
    registrarPuntos cfg cuenta precioOriginal puntosACanjear =
      venta cfg cuenta precioOriginal puntosACanjear none := rfl

theorem jsRound_nonneg {q : ℚ} (h : 0 ≤ q) : 0 ≤ jsRound q :=
  Int.le_floor.2 (by push_cast; linarith)

theorem round2_nonneg {q : ℚ} (h : 0 ≤ q) : 0 ≤ round2 q := by
  have h1 : (0 : ℤ) ≤ jsRound (q * 100) := jsRound_nonneg (by linarith)
  exact div_nonneg (by exact_mod_cast h1) (by norm_num)

theorem puntosGanadosDe_nonneg (cfg : ConfigPuntos) {P : ℚ} (hP : 0 ≤ P)
    (hs : 0 < cfg.solesPorPunto) : 0 ≤ puntosGanadosDe cfg P :=
  Int.le_floor.2 (by push_cast; exact div_nonneg hP hs.le)

theorem puntosACanjearFinalDe_nonneg (cuenta : Option CuentaPuntos) (R : ℤ)
    (ha : 0 ≤ disponiblesActuales cuenta) : 0 ≤ puntosACanjearFinalDe cuenta R :=
  le_min (le_max_left _ _) ha

/-- Core of the ledger invariant: one sale preserves
0 <= puntosDisponibles <= puntosHistoricos. -/
theorem ventaInvariante (cfg : ConfigPuntos) (cuenta : Option CuentaPuntos) (P : ℚ) (R : ℤ)
    (pm : Option ℚ) (hP : 0 ≤ P) (hs : 0 < cfg.solesPorPunto)
    (hinv : ∀ c, cuenta = some c → invariante c) :
    invariante (cuentaTrasVenta cuenta (venta cfg cuenta P R pm)) := by
  have hg : 0 ≤ puntosGanadosDe cfg P := puntosGanadosDe_nonneg cfg hP hs
  cases cuenta with
  | none => exact ⟨hg, le_refl _⟩
  | some c =>
    obtain ⟨hc1, hc2⟩ := hinv c rfl
    have hmin1 : puntosACanjearFinalDe (some c) R ≤ c.puntosDisponibles := min_le_right _ _
    have hmin2 : 0 ≤ puntosACanjearFinalDe (some c) R :=
      puntosACanjearFinalDe_nonneg (some c) R hc1
    constructor
    · show 0 ≤ c.puntosDisponibles - puntosACanjearFinalDe (some c) R + puntosGanadosDe cfg P
      linarith
    · show c.puntosDisponibles - puntosACanjearFinalDe (some c) R + puntosGanadosDe cfg P
        ≤ c.puntosHistoricos + puntosGanadosDe cfg P
      linarith

/-- Evaluation of the earned points at the C4 scenario input. -/
theorem evalC4_ganados : puntosGanadosDe ⟨10, 10⟩ 100 = 10 := by
  show Int.floor ((100 : ℚ) / 10) = 10
  norm_num [Int.floor_eq_iff]

/-- Evaluation of the clamped redemption at the C4 scenario input. -/
theorem evalC4_canje : puntosACanjearFinalDe (some ⟨50, 50⟩) 50 = 50 := by decide

/-- Evaluation of the discount at the C4 scenario input. -/
theorem evalC4_descuento : descuentoPuntosDe ⟨10, 10⟩ (some ⟨50, 50⟩) 100 50 = 5 := by
  norm_num [descuentoPuntosDe, puntosACanjearFinalDe, puntosUsadosDe, disponiblesActuales,
    round2, jsRound, Int.floor_eq_iff]

/-- Evaluation of the final price at the C4 scenario input. -/
theorem evalC4_precioFinal : precioFinalDe ⟨10, 10⟩ (some ⟨50, 50⟩) 100 50 none = 95 := by
  show max 0 ((100 : ℚ) - descuentoPuntosDe ⟨10, 10⟩ (some ⟨50, 50⟩) 100 50) = 95
  rw [evalC4_descuento, show (100 : ℚ) - 5 = 95 by norm_num]
  exact max_eq_right (by norm_num)

/-! ## Claims C1 - C4: the loyalty ledger -/

/-- Claim C1: for every customer account and every sale operation (ticket sale,
instant ticket sale, shipment registration), if 0 <= pointsAvailable <=
pointsHistoric holds before the operation then it holds after it: the update adds
pointsEarned to both balances and subtracts the clamped redemption only from
pointsAvailable, so over-redemption never drives pointsAvailable below zero and
never makes it exceed pointsHistoric. (Instant ticket sale shares the venta
formulas verbatim, ticketsController.js lines 907-999.) -/
theorem c1_invariante_cuenta (cfg : ConfigPuntos) (cuenta : Option CuentaPuntos) (P : ℚ)
    (R : ℤ) (pm : Option ℚ) (hP : 0 ≤ P) (hs : 0 < cfg.solesPorPunto)
    (hinv : ∀ c, cuenta = some c → invariante c) :
    invariante (cuentaTrasVenta cuenta (venta cfg cuenta P R pm)) ∧
    invariante (cuentaTrasVenta cuenta (registrarPuntos cfg cuenta P R)) := by
  refine ⟨ventaInvariante cfg cuenta P R pm hP hs hinv, ?_⟩
  rw [registrarPuntos_eq_venta]
  exact ventaInvariante cfg cuenta P R none hP hs hinv

/-- Witness for c1_invariante_cuenta: a 100-sol sale by a customer holding 50 of
80 historic points who requests to redeem 120 points. -/
theorem c1_invariante_cuenta_witness :
    invariante (cuentaTrasVenta (some ⟨50, 80⟩) (venta ⟨10, 10⟩ (some ⟨50, 80⟩) 100 120 none)) ∧
    invariante (cuentaTrasVenta (some ⟨50, 80⟩) (registrarPuntos ⟨10, 10⟩ (some ⟨50, 80⟩) 100 120)) :=
  c1_invariante_cuenta ⟨10, 10⟩ (some ⟨50, 80⟩) 100 120 none (by norm_num) (by norm_num)
    (fun c hc => by cases hc; exact ⟨by decide, by decide⟩)

/-- Claim C2: pointsEarned = floor (P / solesPerPoint) from the pre-discount
original price; pointsRedeemed = min (max 0 R, pointsAvailable); the ledger adds
pointsEarned - pointsRedeemed to pointsAvailable and pointsEarned to
pointsHistoric; and a missing account is created with
pointsAvailable = pointsHistoric = pointsEarned. -/
theorem c2_libro_mayor (cfg : ConfigPuntos) (cuenta : Option CuentaPuntos) (P : ℚ) (R : ℤ)
    (pm : Option ℚ) :
    (venta cfg cuenta P R pm).puntosGanados = Int.floor (P / cfg.solesPorPunto) ∧
    (venta cfg cuenta P R pm).puntosACanjearFinal = min (max 0 R) (disponiblesActuales cuenta) ∧
    (venta cfg cuenta P R pm).nuevosPuntosDisponibles
      = disponiblesActuales cuenta
        + ((venta cfg cuenta P R pm).puntosGanados
          - (venta cfg cuenta P R pm).puntosACanjearFinal) ∧
    (venta cfg cuenta P R pm).nuevosPuntosHistoricos
      = historicosActuales cuenta + (venta cfg cuenta P R pm).puntosGanados ∧
    cuentaTrasVenta none (venta cfg none P R pm)
      = { puntosDisponibles := puntosGanadosDe cfg P
          puntosHistoricos := puntosGanadosDe cfg P } := by
  refine ⟨rfl, rfl, ?_, rfl, rfl⟩
  show disponiblesActuales cuenta - puntosACanjearFinalDe cuenta R + puntosGanadosDe cfg P
    = disponiblesActuales cuenta + (puntosGanadosDe cfg P - puntosACanjearFinalDe cuenta R)
  omega

/-- Claim C3: discount = round2 (min (redeemed / pointsPerSolDiscount, P)) with
round half up at cent precision; without an override finalPrice =
max (0, P - discount), hence 0 <= finalPrice <= P; a manual override price is
rounded to cents, floored at zero and replaces the final price while earned and
redeemed points are unchanged. -/
theorem c3_descuento_precio_final (cfg : ConfigPuntos) (cuenta : Option CuentaPuntos)
    (P : ℚ) (R : ℤ) (pm : Option ℚ) (hP : 0 ≤ P) (hd : 0 < cfg.puntosPorSolDescuento)
    (ha : 0 ≤ disponiblesActuales cuenta) :
    (venta cfg cuenta P R pm).descuentoPuntos
      = round2 (min (((venta cfg cuenta P R pm).puntosACanjearFinal : ℚ)
          / cfg.puntosPorSolDescuento) P) ∧
    0 ≤ (venta cfg cuenta P R pm).descuentoPuntos ∧
    (pm = none →
      (venta cfg cuenta P R pm).precioFinal
          = max 0 (P - (venta cfg cuenta P R pm).descuentoPuntos) ∧
      0 ≤ (venta cfg cuenta P R pm).precioFinal ∧
      (venta cfg cuenta P R pm).precioFinal ≤ P) ∧
    (∀ m, pm = some m →
      (venta cfg cuenta P R pm).precioFinal = max 0 (round2 m) ∧
      (venta cfg cuenta P R pm).puntosGanados = (venta cfg cuenta P R none).puntosGanados ∧
      (venta cfg cuenta P R pm).puntosACanjearFinal
        = (venta cfg cuenta P R none).puntosACanjearFinal) := by
  have hcanje : (0 : ℚ) ≤ (puntosACanjearFinalDe cuenta R : ℚ) := by
    exact_mod_cast puntosACanjearFinalDe_nonneg cuenta R ha
  have hdesc0 : 0 ≤ descuentoPuntosDe cfg cuenta P R :=
    round2_nonneg (le_min (div_nonneg hcanje hd.le) hP)
  refine ⟨rfl, hdesc0, ?_, ?_⟩
  · rintro rfl
    refine ⟨rfl, le_max_left _ _, ?_⟩
    show max 0 (P - descuentoPuntosDe cfg cuenta P R) ≤ P
    exact max_le hP (by linarith)
  · rintro m rfl
    exact ⟨rfl, rfl, rfl⟩

/-- Witness for c3_descuento_precio_final: the 100-sol sale of the spec scenario,
redeeming 50 points against a 50-of-80 account with both ratios 10. -/
theorem c3_descuento_precio_final_witness :
    (venta ⟨10, 10⟩ (some ⟨50, 80⟩) 100 50 none).descuentoPuntos
      = round2 (min (((venta ⟨10, 10⟩ (some ⟨50, 80⟩) 100 50 none).puntosACanjearFinal : ℚ)
          / 10) 100) ∧
    0 ≤ (venta ⟨10, 10⟩ (some ⟨50, 80⟩) 100 50 none).descuentoPuntos ∧
    ((none : Option ℚ) = none →
      (venta ⟨10, 10⟩ (some ⟨50, 80⟩) 100 50 none).precioFinal
          = max 0 (100 - (venta ⟨10, 10⟩ (some ⟨50, 80⟩) 100 50 none).descuentoPuntos) ∧
      0 ≤ (venta ⟨10, 10⟩ (some ⟨50, 80⟩) 100 50 none).precioFinal ∧
      (venta ⟨10, 10⟩ (some ⟨50, 80⟩) 100 50 none).precioFinal ≤ 100) ∧
    (∀ m, (none : Option ℚ) = some m →
      (venta ⟨10, 10⟩ (some ⟨50, 80⟩) 100 50 none).precioFinal = max 0 (round2 m) ∧
      (venta ⟨10, 10⟩ (some ⟨50, 80⟩) 100 50 none).puntosGanados
        = (venta ⟨10, 10⟩ (some ⟨50, 80⟩) 100 50 none).puntosGanados ∧
      (venta ⟨10, 10⟩ (some ⟨50, 80⟩) 100 50 none).puntosACanjearFinal
        = (venta ⟨10, 10⟩ (some ⟨50, 80⟩) 100 50 none).puntosACanjearFinal) :=
  c3_descuento_precio_final ⟨10, 10⟩ (some ⟨50, 80⟩) 100 50 none (by norm_num) (by norm_num)
    (by decide)

/-- Claim C4, counterexample: at pointsAvailable = 50, both ratios 10, a 100-sol
ticket redeeming 50 points does NOT satisfy the claimed conjunction, because
pointsEarned is computed from the pre-discount price 100 (so it is 10, not
floor (95 / 10) = 9) and the resulting balance is 10, not 9. -/
theorem c4_escenario_contraejemplo :
    ¬ ((venta ⟨10, 10⟩ (some ⟨50, 50⟩) 100 50 none).descuentoPuntos = 5 ∧
      (venta ⟨10, 10⟩ (some ⟨50, 50⟩) 100 50 none).precioFinal = 95 ∧
      (venta ⟨10, 10⟩ (some ⟨50, 50⟩) 100 50 none).puntosGanados = 9 ∧
      (venta ⟨10, 10⟩ (some ⟨50, 50⟩) 100 50 none).nuevosPuntosDisponibles = 9) := by
  intro h
  have h9 := h.2.2.1
  have h10 : (venta ⟨10, 10⟩ (some ⟨50, 50⟩) 100 50 none).puntosGanados = 10 := evalC4_ganados
  rw [h10] at h9
  exact absurd h9 (by decide)

/-- Claim C4 as amended: same scenario; discount = 5.00 and finalPrice = 95.00 as
claimed, but pointsEarned = floor (100 / 10) = 10 (earned on the pre-discount
original price) and the new pointsAvailable is 50 - 50 + 10 = 10. -/
theorem c4_escenario_corregido :
    (venta ⟨10, 10⟩ (some ⟨50, 50⟩) 100 50 none).descuentoPuntos = 5 ∧
    (venta ⟨10, 10⟩ (some ⟨50, 50⟩) 100 50 none).precioFinal = 95 ∧
    (venta ⟨10, 10⟩ (some ⟨50, 50⟩) 100 50 none).puntosGanados = 10 ∧
    (venta ⟨10, 10⟩ (some ⟨50, 50⟩) 100 50 none).nuevosPuntosDisponibles = 10 := by
  refine ⟨evalC4_descuento, evalC4_precioFinal, evalC4_ganados, ?_⟩
  show 50 - puntosACanjearFinalDe (some ⟨50, 50⟩) 50 + puntosGanadosDe ⟨10, 10⟩ 100 = 10
  rw [evalC4_canje, evalC4_ganados]; decide

/-! ## Helper lemmas for the state machine -/

theorem estadoTras_de_error {ε : Type} (enc : Encomienda) (r : Except ε Encomienda)
    (h : ∀ enc2, r ≠ .ok enc2) : estadoTras enc r = enc := by
  cases r with
  | ok enc2 => exact absurd rfl (h enc2)
  | error e => rfl

/-- A listed successor is never the state itself in this transition table. -/
theorem succ_ne_self (s t : Estado) (h : (TRANSICIONES_PERMITIDAS s).contains t = true) :
    t ≠ s := by
  revert h; cases s <;> cases t <;> decide

/-- Extending a forward walk by one listed successor of its last element. -/
theorem camino_append (t : Estado) (l : List Estado) (s e : Estado)
    (hcam : esCaminoDesde s l = true)
    (hlast : (s :: l).getLast? = some e)
    (ht : (TRANSICIONES_PERMITIDAS e).contains t = true) :
    esCaminoDesde s (l ++ [t]) = true := by
  induction l generalizing s with
  | nil =>
    have hse : s = e := by simpa using hlast
    subst hse
    simpa [esCaminoDesde] using ht
  | cons a l ih =>
    simp only [List.cons_append, esCaminoDesde, Bool.and_eq_true] at hcam ⊢
    refine ⟨hcam.1, ih a hcam.2 ?_⟩
    rw [List.getLast?_cons_cons] at hlast
    exact hlast

/-- Appending the event of one legal transition keeps the event history
consistent. -/
theorem eventosConsistentes_append (enc : Encomienda) (t : Estado)
    (hcons : eventosConsistentes enc = true)
    (ht : (TRANSICIONES_PERMITIDAS enc.estadoActual).contains t = true) :
    eventosConsistentes
      { enc with estadoActual := t, eventos := enc.eventos ++ [t] } = true := by
  obtain ⟨est, origen, destino, clave, eventos⟩ := enc
  cases eventos with
  | nil => simp [eventosConsistentes] at hcons
  | cons e0 resto =>
    simp only [eventosConsistentes, List.cons_append, Bool.and_eq_true, beq_iff_eq,
      decide_eq_true_eq] at hcons ⊢
    obtain ⟨⟨he0, hcam⟩, hlast⟩ := hcons
    refine ⟨⟨he0, camino_append t resto e0 est hcam hlast ht⟩, ?_⟩
    rw [← List.cons_append]
    exact List.getLast?_concat _

/-- Inversion of a successful cambiarEstado: every check passed and the row got
the new status with exactly one appended event. -/
theorem cambiarEstado_ok_inv (user : Usuario) (enc : Encomienda) (nuevo tx : Estado)
    (enc2 : Encomienda) (h : cambiarEstado user enc nuevo tx = .ok enc2) :
    perteneceAPunto user enc = true ∧
    (TRANSICIONES_PERMITIDAS enc.estadoActual).contains nuevo = true ∧
    nuevo ≠ .RETIRADO ∧ tx = enc.estadoActual ∧
    enc2 = { enc with estadoActual := nuevo, eventos := enc.eventos ++ [nuevo] } := by
  unfold cambiarEstado at h
  split_ifs at h with h1 h2 h3 h4
  refine ⟨?_, ?_, h3, not_not.mp h4, (Except.ok.inj h).symm⟩
  · cases hb : perteneceAPunto user enc
    · exact absurd hb h1
    · rfl
  · cases hb : (TRANSICIONES_PERMITIDAS enc.estadoActual).contains nuevo
    · exact absurd hb h2
    · rfl

/-- Inversion of a successful retirarCommit. -/
theorem retirarCommit_ok_inv (enc : Encomienda) (tx : Estado) (enc2 : Encomienda)
    (h : retirarCommit enc tx = .ok enc2) :
    tx = .LLEGO_A_DESTINO ∧
    enc2 = { enc with estadoActual := .RETIRADO, eventos := enc.eventos ++ [.RETIRADO] } := by
  unfold retirarCommit at h
  split_ifs at h with h1
  exact ⟨not_not.mp h1, (Except.ok.inj h).symm⟩

/-- Inversion of a successful retirar: every check of part_005 lines 904-1035
passed and the row was set to RETIRADO with one appended event. -/
theorem retirar_ok_inv (user : Usuario) (enc : Encomienda) (dni foto clave : Option String)
    (tx : Estado) (enc2 : Encomienda) (h : retirar user enc dni foto clave tx = .ok enc2) :
    dni ≠ none ∧ foto ≠ none ∧ enc.estadoActual = .LLEGO_A_DESTINO ∧
    retiroNoAutorizado user enc = false ∧
    (∀ c, enc.claveSeguridad = some c → clave = some c) ∧
    tx = .LLEGO_A_DESTINO ∧
    enc2 = { enc with estadoActual := .RETIRADO, eventos := enc.eventos ++ [.RETIRADO] } := by
  obtain ⟨est, po, pd, cs, evs⟩ := enc
  cases dni with
  | none => simp [retirar] at h
  | some d =>
    cases foto with
    | none => simp [retirar] at h
    | some f =>
      cases cs with
      | none =>
        simp only [retirar] at h
        split_ifs at h with h1 h2 h3
        obtain ⟨htx, henc2⟩ := retirarCommit_ok_inv ⟨est, po, pd, none, evs⟩ tx enc2 h
        refine ⟨by simp, by simp, not_not.mp h2, ?_, ?_, htx, henc2⟩
        · cases hb : retiroNoAutorizado user ⟨est, po, pd, none, evs⟩
          · rfl
          · exact absurd hb h3
        · intro c2 hc2
          exact Option.noConfusion hc2
      | some c =>
        cases clave with
        | none =>
          simp only [retirar] at h
          split_ifs at h
        | some ci =>
          simp only [retirar] at h
          split_ifs at h with h1 h2 h3 h4
          obtain ⟨htx, henc2⟩ := retirarCommit_ok_inv ⟨est, po, pd, some c, evs⟩ tx enc2 h
          refine ⟨by simp, by simp, not_not.mp h2, ?_, ?_, htx, henc2⟩
          · cases hb : retiroNoAutorizado user ⟨est, po, pd, some c, evs⟩
            · rfl
            · exact absurd hb h3
          · intro c2 hc2
            rw [← Option.some.inj hc2, ← not_not.mp h4]

/-! ## Claims C5 - C7 and C10: the shipment state machine -/

/-- Claim C5: the transition table allows exactly one successor per state along
REGISTRADO, EN_ALMACEN, EN_RUTA, LLEGO_A_DESTINO, RETIRADO and the terminal state
has no successors; an authorized request for a non-listed transition is rejected
with the invalid-transition error leaving the row unchanged; and the event
history of a shipment (created by registrar, then mutated only by cambiarEstado
and retirar) is always a strictly forward walk of the table ending at the current
status. -/
theorem c5_maquina_de_estados :
    (TRANSICIONES_PERMITIDAS .REGISTRADO = [.EN_ALMACEN] ∧
      TRANSICIONES_PERMITIDAS .EN_ALMACEN = [.EN_RUTA] ∧
      TRANSICIONES_PERMITIDAS .EN_RUTA = [.LLEGO_A_DESTINO] ∧
      TRANSICIONES_PERMITIDAS .LLEGO_A_DESTINO = [.RETIRADO] ∧
      TRANSICIONES_PERMITIDAS .RETIRADO = []) ∧
    (∀ user enc nuevo tx, perteneceAPunto user enc = true →
      (TRANSICIONES_PERMITIDAS enc.estadoActual).contains nuevo = false →
      cambiarEstado user enc nuevo tx = .error .transicionNoPermitida ∧
      estadoTras enc (cambiarEstado user enc nuevo tx) = enc) ∧
    (∀ user enc nuevo tx enc2, cambiarEstado user enc nuevo tx = .ok enc2 →
      eventosConsistentes enc = true → eventosConsistentes enc2 = true) ∧
    (∀ user enc dni foto clave tx enc2, retirar user enc dni foto clave tx = .ok enc2 →
      eventosConsistentes enc = true → eventosConsistentes enc2 = true) ∧
    (∀ origen destino clave,
      eventosConsistentes (encomiendaInicial origen destino clave) = true) := by
  refine ⟨⟨rfl, rfl, rfl, rfl, rfl⟩, ?_, ?_, ?_, ?_⟩
  · intro user enc nuevo tx hpert hcont
    have hres : cambiarEstado user enc nuevo tx = .error .transicionNoPermitida := by
      simp [cambiarEstado, hpert, hcont]
    exact ⟨hres, by rw [hres]; rfl⟩
  · intro user enc nuevo tx enc2 h hcons
    obtain ⟨-, hcont, -, -, henc2⟩ := cambiarEstado_ok_inv user enc nuevo tx enc2 h
    rw [henc2]
    exact eventosConsistentes_append enc nuevo hcons hcont
  · intro user enc dni foto clave tx enc2 h hcons
    obtain ⟨-, -, hest, -, -, -, henc2⟩ := retirar_ok_inv user enc dni foto clave tx enc2 h
    rw [henc2]
    refine eventosConsistentes_append enc .RETIRADO hcons ?_
    rw [hest]; rfl
  · intro origen destino clave
    rfl

/-- Witness for c5_maquina_de_estados: a rejected REGISTRADO to EN_RUTA jump, a
performed REGISTRADO to EN_ALMACEN step with consistent history, and a freshly
registered shipment. -/
theorem c5_maquina_de_estados_witness :
    cambiarEstado ⟨none⟩ ⟨.REGISTRADO, 1, 2, none, [.REGISTRADO]⟩ .EN_RUTA .REGISTRADO
      = .error .transicionNoPermitida ∧
    eventosConsistentes ⟨.EN_ALMACEN, 1, 2, none, [.REGISTRADO, .EN_ALMACEN]⟩ = true ∧
    eventosConsistentes (encomiendaInicial 1 2 none) = true :=
  ⟨(c5_maquina_de_estados.2.1 ⟨none⟩ ⟨.REGISTRADO, 1, 2, none, [.REGISTRADO]⟩ .EN_RUTA
      .REGISTRADO rfl rfl).1,
    c5_maquina_de_estados.2.2.1 ⟨none⟩ ⟨.REGISTRADO, 1, 2, none, [.REGISTRADO]⟩ .EN_ALMACEN
      .REGISTRADO ⟨.EN_ALMACEN, 1, 2, none, [.REGISTRADO, .EN_ALMACEN]⟩ rfl rfl,
    c5_maquina_de_estados.2.2.2.2 1 2 none⟩

/-- Claim C6: a transition request whose transaction-time re-read differs from
the status observed at validation never writes, leaves the shipment unchanged,
and (when the request had passed validation) surfaces the concurrent-modification
conflict with HTTP 409; of two requests validated against the same status and
executed serially, exactly the first succeeds and the final status reflects only
the winning transition. -/
theorem c6_concurrencia_optimista :
    (∀ user enc nuevo tx, tx ≠ enc.estadoActual →
      (∀ enc2, cambiarEstado user enc nuevo tx ≠ .ok enc2) ∧
      estadoTras enc (cambiarEstado user enc nuevo tx) = enc ∧
      (perteneceAPunto user enc = true →
        (TRANSICIONES_PERMITIDAS enc.estadoActual).contains nuevo = true →
        nuevo ≠ .RETIRADO →
        cambiarEstado user enc nuevo tx = .error .conflictoConcurrente ∧
        httpDeErrorCambio .conflictoConcurrente = 409)) ∧
    (∀ u1 u2 enc t1 t2,
      perteneceAPunto u1 enc = true → perteneceAPunto u2 enc = true →
      (TRANSICIONES_PERMITIDAS enc.estadoActual).contains t1 = true → t1 ≠ .RETIRADO →
      (TRANSICIONES_PERMITIDAS enc.estadoActual).contains t2 = true → t2 ≠ .RETIRADO →
      ∃ enc1, cambiarEstado u1 enc t1 enc.estadoActual = .ok enc1 ∧
        enc1.estadoActual = t1 ∧
        cambiarEstado u2 enc t2 enc1.estadoActual = .error .conflictoConcurrente) := by
  constructor
  · intro user enc nuevo tx htx
    have hnotok : ∀ enc2, cambiarEstado user enc nuevo tx ≠ .ok enc2 := by
      intro enc2 hok
      obtain ⟨-, -, -, htx2, -⟩ := cambiarEstado_ok_inv user enc nuevo tx enc2 hok
      exact htx htx2
    refine ⟨hnotok, estadoTras_de_error enc _ hnotok, ?_⟩
    intro hpert hcont hret
    refine ⟨?_, rfl⟩
    simp [cambiarEstado, hpert, hcont, hret, htx]
  · intro u1 u2 enc t1 t2 hp1 hp2 hc1 hr1 hc2 hr2
    refine ⟨{ enc with estadoActual := t1, eventos := enc.eventos ++ [t1] }, ?_, rfl, ?_⟩
    · simp [cambiarEstado, hp1, hc1, hr1]
    · have hne : t1 ≠ enc.estadoActual := succ_ne_self enc.estadoActual t1 hc1
      simp [cambiarEstado, hp2, hc2, hr2, hne]

/-- Witness for c6_concurrencia_optimista: a stale EN_RUTA re-read blocks the
write, and of two EN_ALMACEN requests serialized on the same REGISTRADO
shipment only the first wins. -/
theorem c6_concurrencia_optimista_witness :
    ((∀ enc2, cambiarEstado ⟨none⟩ ⟨.REGISTRADO, 1, 2, none, [.REGISTRADO]⟩ .EN_ALMACEN
        .EN_RUTA ≠ .ok enc2) ∧
      estadoTras ⟨.REGISTRADO, 1, 2, none, [.REGISTRADO]⟩
        (cambiarEstado ⟨none⟩ ⟨.REGISTRADO, 1, 2, none, [.REGISTRADO]⟩ .EN_ALMACEN .EN_RUTA)
        = ⟨.REGISTRADO, 1, 2, none, [.REGISTRADO]⟩) ∧
    (∃ enc1, cambiarEstado ⟨none⟩ ⟨.REGISTRADO, 1, 2, none, [.REGISTRADO]⟩ .EN_ALMACEN
        .REGISTRADO = .ok enc1 ∧
      enc1.estadoActual = .EN_ALMACEN ∧
      cambiarEstado ⟨none⟩ ⟨.REGISTRADO, 1, 2, none, [.REGISTRADO]⟩ .EN_ALMACEN
        enc1.estadoActual = .error .conflictoConcurrente) :=
  ⟨⟨(c6_concurrencia_optimista.1 ⟨none⟩ ⟨.REGISTRADO, 1, 2, none, [.REGISTRADO]⟩ .EN_ALMACEN
        .EN_RUTA (by decide)).1,
      (c6_concurrencia_optimista.1 ⟨none⟩ ⟨.REGISTRADO, 1, 2, none, [.REGISTRADO]⟩ .EN_ALMACEN
        .EN_RUTA (by decide)).2.1⟩,
    c6_concurrencia_optimista.2 ⟨none⟩ ⟨none⟩ ⟨.REGISTRADO, 1, 2, none, [.REGISTRADO]⟩
      .EN_ALMACEN .EN_ALMACEN rfl rfl rfl (by decide) rfl (by decide)⟩

/-- Claim C7: a successful collection implies the actor was bound to the
destination (or to no location), a proof photo was submitted and any security
code matched, and it sets RETIRADO; a missing photo, an actor from another
location, a missing submitted code, and a wrong code each fail with their
specific error leaving the row unchanged; the matching code with a photo
transitions to RETIRADO. -/
theorem c7_retiro_seguro :
    (∀ user enc dni foto clave tx enc2, retirar user enc dni foto clave tx = .ok enc2 →
      retiroNoAutorizado user enc = false ∧ dni ≠ none ∧ foto ≠ none ∧
      enc.estadoActual = .LLEGO_A_DESTINO ∧
      (∀ c, enc.claveSeguridad = some c → clave = some c) ∧
      enc2.estadoActual = .RETIRADO) ∧
    (∀ user enc d clave tx,
      retirar user enc (some d) none clave tx = .error .fotoRequerida) ∧
    (∀ user enc d f clave tx, ¬ MAX_FOTO_SIZE < (f.length : ℚ) →
      enc.estadoActual = .LLEGO_A_DESTINO → retiroNoAutorizado user enc = true →
      retirar user enc (some d) (some f) clave tx = .error .noAutorizado ∧
      estadoTras enc (retirar user enc (some d) (some f) clave tx) = enc) ∧
    (∀ user enc d f tx c, ¬ MAX_FOTO_SIZE < (f.length : ℚ) →
      enc.estadoActual = .LLEGO_A_DESTINO → retiroNoAutorizado user enc = false →
      enc.claveSeguridad = some c →
      (retirar user enc (some d) (some f) none tx = .error .claveRequerida ∧
        estadoTras enc (retirar user enc (some d) (some f) none tx) = enc) ∧
      (∀ ci, ci ≠ c →
        retirar user enc (some d) (some f) (some ci) tx = .error .claveIncorrecta ∧
        estadoTras enc (retirar user enc (some d) (some f) (some ci) tx) = enc) ∧
      (tx = .LLEGO_A_DESTINO →
        retirar user enc (some d) (some f) (some c) tx
          = .ok { enc with estadoActual := .RETIRADO, eventos := enc.eventos ++ [.RETIRADO] })) := by
  refine ⟨?_, ?_, ?_, ?_⟩
  · intro user enc dni foto clave tx enc2 h
    obtain ⟨hdni, hfoto, hest, haut, hclave, -, henc2⟩ :=
      retirar_ok_inv user enc dni foto clave tx enc2 h
    exact ⟨haut, hdni, hfoto, hest, hclave, by rw [henc2]⟩
  · intro user enc d clave tx
    rfl
  · intro user enc d f clave tx hfoto hest haut
    have hres : retirar user enc (some d) (some f) clave tx = .error .noAutorizado := by
      simp [retirar, hfoto, hest, haut]
    exact ⟨hres, by rw [hres]; rfl⟩
  · intro user enc d f tx c hfoto hest haut hcs
    refine ⟨?_, ?_, ?_⟩
    · have hres : retirar user enc (some d) (some f) none tx = .error .claveRequerida := by
        simp [retirar, hfoto, hest, haut, hcs]
      exact ⟨hres, by rw [hres]; rfl⟩
    · intro ci hci
      have hres : retirar user enc (some d) (some f) (some ci) tx
          = .error .claveIncorrecta := by
        simp [retirar, hfoto, hest, haut, hcs, hci]
      exact ⟨hres, by rw [hres]; rfl⟩
    · intro htx
      simp [retirar, retirarCommit, hfoto, hest, haut, hcs, htx]

/-- Witness for c7_retiro_seguro: the spec scenario - a shipment at
LLEGO_A_DESTINO carrying code 4821: collecting with no code fails, with 0000
fails, with 4821 and a photo succeeds. -/
theorem c7_retiro_seguro_witness :
    retirar ⟨some 2⟩
        ⟨.LLEGO_A_DESTINO, 1, 2, some "4821",
          [.REGISTRADO, .EN_ALMACEN, .EN_RUTA, .LLEGO_A_DESTINO]⟩
        (some "44556677") (some "foto") none .LLEGO_A_DESTINO
      = .error .claveRequerida ∧
    retirar ⟨some 2⟩
        ⟨.LLEGO_A_DESTINO, 1, 2, some "4821",
          [.REGISTRADO, .EN_ALMACEN, .EN_RUTA, .LLEGO_A_DESTINO]⟩
        (some "44556677") (some "foto") (some "0000") .LLEGO_A_DESTINO
      = .error .claveIncorrecta ∧
    retirar ⟨some 2⟩
        ⟨.LLEGO_A_DESTINO, 1, 2, some "4821",
          [.REGISTRADO, .EN_ALMACEN, .EN_RUTA, .LLEGO_A_DESTINO]⟩
        (some "44556677") (some "foto") (some "4821") .LLEGO_A_DESTINO
      = .ok ⟨.RETIRADO, 1, 2, some "4821",
          [.REGISTRADO, .EN_ALMACEN, .EN_RUTA, .LLEGO_A_DESTINO, .RETIRADO]⟩ :=
  have h := c7_retiro_seguro.2.2.2 ⟨some 2⟩
    ⟨.LLEGO_A_DESTINO, 1, 2, some "4821",
      [.REGISTRADO, .EN_ALMACEN, .EN_RUTA, .LLEGO_A_DESTINO]⟩
    "44556677" "foto" .LLEGO_A_DESTINO "4821"
    (by show ¬ MAX_FOTO_SIZE < ((4 : ℕ) : ℚ); norm_num [MAX_FOTO_SIZE]) rfl rfl rfl
  ⟨h.1.1, (h.2.1 "0000" (by decide)).1, by have h3 := h.2.2 rfl; exact h3⟩

/-- Claim C10: the generic status-change endpoint always rejects a RETIRADO
target with a client error (4xx) and leaves the shipment unchanged - even from
LLEGO_A_DESTINO, whose table successor is RETIRADO, where it answers with the
use-the-collect-endpoint error - so the terminal state is reachable only through
retirar. -/
theorem c10_retirado_solo_por_endpoint (user : Usuario) (enc : Encomienda) (tx : Estado) :
    (∀ enc2, cambiarEstado user enc .RETIRADO tx ≠ .ok enc2) ∧
    estadoTras enc (cambiarEstado user enc .RETIRADO tx) = enc ∧
    (∃ e, cambiarEstado user enc .RETIRADO tx = .error e ∧
      400 ≤ httpDeErrorCambio e ∧ httpDeErrorCambio e < 500) ∧
    (perteneceAPunto user enc = true → enc.estadoActual = .LLEGO_A_DESTINO →
      cambiarEstado user enc .RETIRADO tx = .error .usarEndpointRetiro) := by
  have hnotok : ∀ enc2, cambiarEstado user enc .RETIRADO tx ≠ .ok enc2 := by
    intro enc2 hok
    obtain ⟨-, -, hret, -, -⟩ := cambiarEstado_ok_inv user enc .RETIRADO tx enc2 hok
    exact hret rfl
  refine ⟨hnotok, estadoTras_de_error enc _ hnotok, ?_, ?_⟩
  · cases hres : cambiarEstado user enc .RETIRADO tx with
    | ok enc2 => exact absurd hres (hnotok enc2)
    | error e => exact ⟨e, rfl, by cases e <;> decide, by cases e <;> decide⟩
  · intro hpert hest
    have hcont : (TRANSICIONES_PERMITIDAS enc.estadoActual).contains .RETIRADO = true := by
      rw [hest]; rfl
    simp [cambiarEstado, hpert, hcont]

/-- Witness for c10_retirado_solo_por_endpoint: RETIRADO requested from
LLEGO_A_DESTINO through the generic endpoint is redirected to retirar. -/
theorem c10_retirado_solo_por_endpoint_witness :
    cambiarEstado ⟨none⟩
        ⟨.LLEGO_A_DESTINO, 1, 2, none, [.REGISTRADO, .EN_ALMACEN, .EN_RUTA, .LLEGO_A_DESTINO]⟩
        .RETIRADO .LLEGO_A_DESTINO
      = .error .usarEndpointRetiro :=
  (c10_retirado_solo_por_endpoint ⟨none⟩
    ⟨.LLEGO_A_DESTINO, 1, 2, none, [.REGISTRADO, .EN_ALMACEN, .EN_RUTA, .LLEGO_A_DESTINO]⟩
    .LLEGO_A_DESTINO).2.2.2 rfl rfl

/-! ## Claim C8: sequential code allocation -/

/-- Claim C8, failing input: both read-max-then-increment allocators compute the
next code purely from the snapshot of existing same-day codes, so two concurrent
allocations that both read the day snapshot holding only sequence 1 produce the
very same code TKT-20260115-00002 (resp. ENC-20260115-00002): two concurrent
calls yield one distinct code, not two. -/
theorem c8_carrera_lectura_max :
    generarCodigoTicket "20260115" [1] = "TKT-20260115-00002" ∧
    generarCodigoTracking "20260115" [1] = "ENC-20260115-00002" ∧
    [generarCodigoTicket "20260115" [1],
      generarCodigoTicket "20260115" [1]].dedup.length = 1 := by
  exact ⟨rfl, rfl, by decide⟩

/-! ## Claim C9: invoice failure never rolls back the committed sale -/

/-- Claim C9: once the sale transaction has committed the document, a failing
comprobante emission leaves it persisted, the caller still receives the 201
partial-success response carrying the document and the invoice-error flag, and
the persisted store is the same as on emission success. -/
theorem c9_comprobante_no_revierte (α : Type) (committed : List α) (doc : α)
    (msg : String) (idc : ℤ) :
    (emitirYResponder committed doc (.error msg)).1 = committed ++ [doc] ∧
    doc ∈ (emitirYResponder committed doc (.error msg)).1 ∧
    (emitirYResponder committed doc (.error msg)).2.status = 201 ∧
    (emitirYResponder committed doc (.error msg)).2.documento = some doc ∧
    (emitirYResponder committed doc (.error msg)).2.comprobanteError = some msg ∧
    (emitirYResponder committed doc (.error msg)).1
      = (emitirYResponder committed doc (.ok idc)).1 := by
  refine ⟨rfl, ?_, rfl, rfl, rfl, rfl⟩
  simp [emitirYResponder]

end Selvatico
